import Mathlib

/-!
Verification of the weekly/quarterly poll bot against its specification.

The repository consists of three Python modules:
* `bot.py`     — weekly poll (votes, availability slots, matching engine,
                 created-event form flow, reminder scheduling),
* `events.py`  — tracked Discord scheduled events (announcement message
                 synchronisation and 24h/2h reminders),
* `quarter_poll.py` — a quarterly long-term poll variant with whole-day
                 availability entered as a CSV of ISO dates.

Each definition below is a direct shallow embedding of the corresponding
Python function.  SQLite tables with a UNIQUE constraint over all stored
columns are modelled as `Finset`s of row tuples; tables keyed by a unique
id are modelled as functions from the key to `Option` of the row payload.
Wall-clock instants are modelled as integers (seconds).
-/

namespace WeeklyPollBot

/-- A row of the `availability` table of `bot.py`:
`(poll_id, user_id, slot)`, with `UNIQUE(poll_id, user_id, slot)`. -/
abbrev AvailRow := String × Nat × String

/-- A row of the `votes` table of `bot.py`:
`(poll_id, option_id, user_id)`, with `UNIQUE(poll_id, option_id, user_id)`. -/
abbrev VoteRow := String × Nat × Nat

/-- `bot.py` `persist_availability`: `DELETE FROM availability WHERE
poll_id = ? AND user_id = ?`, then (only when `slots` is non-empty)
`INSERT OR IGNORE` one row per slot. -/
def persist_availability (pollId : String) (userId : Nat) (slots : List String)
    (table : Finset AvailRow) : Finset AvailRow :=
  let cleared := table.filter (fun r => ¬(r.1 = pollId ∧ r.2.1 = userId))
  if slots.isEmpty then cleared
  else slots.foldl (fun t s => insert (pollId, userId, s) t) cleared

/-- `bot.py` `RemovePersistedButton.callback` DB action:
`DELETE FROM availability WHERE poll_id = ? AND user_id = ?`. -/
def clear_availability (pollId : String) (userId : Nat)
    (table : Finset AvailRow) : Finset AvailRow :=
  table.filter (fun r => ¬(r.1 = pollId ∧ r.2.1 = userId))

/-- The persisted slot set of one user in one poll:
`SELECT slot FROM availability WHERE poll_id = ? AND user_id = ?`. -/
def persistedSlots (pollId : String) (userId : Nat)
    (table : Finset AvailRow) : Finset String :=
  (table.filter (fun r => r.1 = pollId ∧ r.2.1 = userId)).image (fun r => r.2.2)

/-- `bot.py` `PollButton.callback` vote handling: `SELECT 1 FROM votes WHERE
poll_id = ? AND option_id = ? AND user_id = ?`; if a row exists call
`remove_vote` (a `DELETE`), else `add_vote` (an `INSERT OR IGNORE`). -/
def toggle_vote (pollId : String) (optionId userId : Nat)
    (votes : Finset VoteRow) : Finset VoteRow :=
  if (pollId, optionId, userId) ∈ votes then votes.erase (pollId, optionId, userId)
  else insert (pollId, optionId, userId) votes

section AvailabilityLemmas

lemma mem_foldl_insert (slots : List String) (pollId : String) (userId : Nat)
    (acc : Finset AvailRow) (r : AvailRow) :
    r ∈ slots.foldl (fun t s => insert (pollId, userId, s) t) acc ↔
      r ∈ acc ∨ (r.1 = pollId ∧ r.2.1 = userId ∧ r.2.2 ∈ slots) := by
  induction slots generalizing acc with
  | nil => simp
  | cons s rest ih =>
      simp only [List.foldl_cons, ih, Finset.mem_insert, List.mem_cons]
      constructor
      · rintro ((h | h) | h)
        · subst h; exact Or.inr ⟨rfl, rfl, Or.inl rfl⟩
        · exact Or.inl h
        · exact Or.inr ⟨h.1, h.2.1, Or.inr h.2.2⟩
      · rintro (h | ⟨h1, h2, (h3 | h3)⟩)
        · exact Or.inl (Or.inr h)
        · refine Or.inl (Or.inl ?_)
          obtain ⟨a, b, c⟩ := r
          simp_all
        · exact Or.inr ⟨h1, h2, h3⟩

lemma mem_persist_availability (pollId : String) (userId : Nat)
    (slots : List String) (table : Finset AvailRow) (r : AvailRow) :
    r ∈ persist_availability pollId userId slots table ↔
      (r ∈ table ∧ ¬(r.1 = pollId ∧ r.2.1 = userId)) ∨
      (r.1 = pollId ∧ r.2.1 = userId ∧ r.2.2 ∈ slots) := by
  unfold persist_availability
  by_cases h : slots.isEmpty
  · rcases List.isEmpty_iff.mp h with rfl
    simp [Finset.mem_filter, and_comm]
  · rw [if_neg h]
    rw [mem_foldl_insert]
    simp only [Finset.mem_filter]

/-- The rows for `(pollId, userId)` after `persist_availability` are exactly
the submitted slots, independently of the prior table contents. -/
lemma persistedSlots_persist (pollId : String) (userId : Nat)
    (slots : List String) (table : Finset AvailRow) :
    persistedSlots pollId userId (persist_availability pollId userId slots table)
      = slots.toFinset := by
  ext s
  simp only [persistedSlots, Finset.mem_image, Finset.mem_filter,
    mem_persist_availability, List.mem_toFinset]
  constructor
  · rintro ⟨⟨a, b, c⟩, ⟨(⟨_, hn⟩ | ⟨h1, h2, h3⟩), hp, hu⟩, rfl⟩
    · exact absurd ⟨hp, hu⟩ hn
    · exact h3
  · intro hs
    exact ⟨(pollId, userId, s), ⟨Or.inr ⟨rfl, rfl, hs⟩, rfl, rfl⟩, rfl⟩

end AvailabilityLemmas

/-! ## Matching engine (`bot.py` `compute_matches_for_poll_from_db`)

The Python function re-reads the poll's options, votes and availability rows
and works on in-memory dicts.  The embedding takes the three row lists as
arguments.  Python dict/`set` iteration fixes some enumeration order; the
embedding uses first-occurrence order throughout, and every property proved
below is order-independent. -/

/-- A row of the `options` table: `(id, option_text, created_at, author_id)`. -/
structure OptionRow where
  id : Nat
  text : String
  created_at : String
  author_id : Option Nat
deriving DecidableEq, Repr

/-- One entry of a match list, the dict `{"slot": s, "users": users}`. -/
structure SlotInfo where
  slot : String
  users : List Nat
deriving DecidableEq, Repr

/-- First-occurrence deduplication, mirroring insertion into a Python dict
or set while preserving the order keys first appear. -/
def dedupFirst (l : List String) : List String :=
  l.foldl (fun acc s => if s ∈ acc then acc else acc ++ [s]) []

/-- `votes_map.get(opt_id, [])`: the voters of one option, in vote-row order
(`votes_map` is built by appending while scanning the vote rows). -/
def votersOf (votes : List (Nat × Nat)) (optId : Nat) : List Nat :=
  (votes.filter (fun v => v.1 = optId)).map (fun v => v.2)

/-- `avail_map.get(u, set())`: the slot set of one user.  The table's
UNIQUE constraint makes the rows duplicate-free already; `dedupFirst`
mirrors the `set()` built by successive `add` calls. -/
def slotsOf (avail : List (Nat × String)) (u : Nat) : List String :=
  dedupFirst ((avail.filter (fun a => a.1 = u)).map (fun a => a.2))

/-- The keys of `slot_to_users` in insertion order: every slot marked by some
voter of the option, first occurrence first. -/
def slotKeys (avail : List (Nat × String)) (voters : List Nat) : List String :=
  dedupFirst (voters.flatMap (slotsOf avail))

/-- `slot_to_users[s]`: the voters of the option available in slot `s`,
in voter order (each voter is appended once per slot it marked). -/
def usersForSlot (avail : List (Nat × String)) (voters : List Nat)
    (s : String) : List Nat :=
  voters.filter (fun u => s ∈ slotsOf avail u)

/-- The `common_slots` list: the entries of `slot_to_users` whose user list
has at least 2 members. -/
def commonSlots (votes : List (Nat × Nat)) (avail : List (Nat × String))
    (optId : Nat) : List SlotInfo :=
  let voters := votersOf votes optId
  ((slotKeys avail voters).map
      (fun s => SlotInfo.mk s (usersForSlot avail voters s))).filter
    (fun i => 2 ≤ i.users.length)

/-- `max(len(info["users"]) for info in common_slots)`.  In the source this
is only evaluated on a non-empty list, where the `0` fold seed is inert. -/
def maxUsersCount (l : List SlotInfo) : Nat :=
  (l.map (fun i => i.users.length)).foldl Nat.max 0

/-- The per-option body of the `compute_matches_for_poll_from_db` loop:
`none` when the option is skipped (fewer than 2 voters, or no qualifying
slot), otherwise the `best` list of maximal-count qualifying slots. -/
def bestSlotsForOption (votes : List (Nat × Nat)) (avail : List (Nat × String))
    (optId : Nat) : Option (List SlotInfo) :=
  let voters := votersOf votes optId
  if voters.length < 2 then none
  else
    let common := commonSlots votes avail optId
    if common.isEmpty then none
    else some (common.filter (fun i => i.users.length = maxUsersCount common))

/-- Assignment `results[opt_text] = best` into a Python dict: replace in
place when the key exists, else append. -/
def dictInsert (res : List (String × List SlotInfo)) (k : String)
    (v : List SlotInfo) : List (String × List SlotInfo) :=
  if res.any (fun p => p.1 = k) then
    res.map (fun p => if p.1 = k then (k, v) else p)
  else res ++ [(k, v)]

/-- `bot.py` `compute_matches_for_poll_from_db`, over the poll's option,
vote and availability rows. -/
def compute_matches_for_poll_from_db (options : List OptionRow)
    (votes : List (Nat × Nat)) (avail : List (Nat × String)) :
    List (String × List SlotInfo) :=
  options.foldl
    (fun res o =>
      match bestSlotsForOption votes avail o.id with
      | none => res
      | some best => dictInsert res o.text best)
    []

/-- `quarter_poll.py` `build_quarter_embed`, day-surfacing part: for one
option, the "Beliebteste Tage" day list shown in the embed (empty when
nothing is surfaced).  Note the thresholds of the source: the block runs
under `if voters:` (at least 1 voter) and keeps days with `len(ulist) >= 1`
(at least 1 available voter). -/
def quarterBestDays (votes : List (Nat × Nat)) (avail : List (Nat × String))
    (optId : Nat) : List (String × List Nat) :=
  let voters := votersOf votes optId
  if voters.isEmpty then []
  else
    let dayKeys := dedupFirst (voters.flatMap (slotsOf avail))
    let common := (dayKeys.map
        (fun d => (d, voters.filter (fun u => d ∈ slotsOf avail u)))).filter
      (fun p => 1 ≤ p.2.length)
    if common.isEmpty then []
    else
      let maxCount := (common.map (fun p => p.2.length)).foldl Nat.max 0
      common.filter (fun p => p.2.length = maxCount)

section MatchingLemmas

lemma foldl_max_init_le (l : List Nat) (a : Nat) : a ≤ l.foldl Nat.max a := by
  induction l generalizing a with
  | nil => simp
  | cons b t ih => exact le_trans (Nat.le_max_left a b) (ih (Nat.max a b))

lemma le_foldl_max (l : List Nat) (a : Nat) : ∀ x ∈ l, x ≤ l.foldl Nat.max a := by
  induction l generalizing a with
  | nil => simp
  | cons b t ih =>
      intro x hx
      rcases List.mem_cons.mp hx with rfl | hx
      · exact le_trans (Nat.le_max_right a x) (foldl_max_init_le t (Nat.max a x))
      · exact ih (Nat.max a b) x hx

lemma foldl_max_eq_or_mem (l : List Nat) (a : Nat) :
    l.foldl Nat.max a = a ∨ l.foldl Nat.max a ∈ l := by
  induction l generalizing a with
  | nil => simp
  | cons b t ih =>
      rw [List.foldl_cons]
      rcases ih (Nat.max a b) with h | h
      · have hmc : Nat.max a b = a ∨ Nat.max a b = b := by
          by_cases hab : a ≤ b
          · exact Or.inr (Nat.max_eq_right hab)
          · exact Or.inl (Nat.max_eq_left (Nat.le_of_not_le hab))
        rcases hmc with hm | hm
        · exact Or.inl (h.trans hm)
        · exact Or.inr (by rw [h, hm]; exact List.mem_cons_self b t)
      · exact Or.inr (List.mem_cons_of_mem b h)

/-- On a non-empty list, `maxUsersCount` is attained by some entry. -/
lemma maxUsersCount_attained (l : List SlotInfo) (hne : l ≠ []) :
    ∃ i ∈ l, i.users.length = maxUsersCount l := by
  rcases foldl_max_eq_or_mem (l.map (fun i => i.users.length)) 0 with h | h
  · rcases List.exists_mem_of_ne_nil l hne with ⟨j, hj⟩
    refine ⟨j, hj, ?_⟩
    have hle := le_foldl_max (l.map (fun i => i.users.length)) 0
      j.users.length (List.mem_map_of_mem _ hj)
    unfold maxUsersCount
    omega
  · rcases List.mem_map.mp h with ⟨j, hj, hjl⟩
    exact ⟨j, hj, hjl⟩

lemma le_maxUsersCount (l : List SlotInfo) (i : SlotInfo) (hi : i ∈ l) :
    i.users.length ≤ maxUsersCount l :=
  le_foldl_max _ 0 _ (List.mem_map_of_mem _ hi)

/-- Every entry of a `dictInsert` result is an old entry or the new pair. -/
lemma mem_dictInsert (res : List (String × List SlotInfo)) (k : String)
    (v : List SlotInfo) (p : String × List SlotInfo) :
    p ∈ dictInsert res k v → p ∈ res ∨ p = (k, v) := by
  unfold dictInsert
  by_cases h : res.any (fun q => q.1 = k)
  · rw [if_pos h]
    intro hp
    rcases List.mem_map.mp hp with ⟨q, hq, hqe⟩
    by_cases hk : q.1 = k
    · rw [if_pos hk] at hqe
      exact Or.inr hqe.symm
    · rw [if_neg hk] at hqe
      exact Or.inl (hqe ▸ hq)
  · rw [if_neg h]
    intro hp
    rcases List.mem_append.mp hp with hp | hp
    · exact Or.inl hp
    · right; simpa using hp

/-- Every entry of the match result comes from some option whose
`bestSlotsForOption` is its value. -/
lemma mem_compute_matches (options : List OptionRow) (votes : List (Nat × Nat))
    (avail : List (Nat × String)) (p : String × List SlotInfo) :
    p ∈ compute_matches_for_poll_from_db options votes avail →
      ∃ o ∈ options, o.text = p.1 ∧
        bestSlotsForOption votes avail o.id = some p.2 := by
  unfold compute_matches_for_poll_from_db
  suffices h : ∀ (opts : List OptionRow) (res : List (String × List SlotInfo)),
      p ∈ opts.foldl (fun res o =>
        match bestSlotsForOption votes avail o.id with
        | none => res
        | some best => dictInsert res o.text best) res →
      p ∈ res ∨ ∃ o ∈ opts, o.text = p.1 ∧
        bestSlotsForOption votes avail o.id = some p.2 by
    intro hp
    rcases h options [] hp with hc | hc
    · simp at hc
    · exact hc
  intro opts
  induction opts with
  | nil => intro res hp; exact Or.inl hp
  | cons o t ih =>
      intro res hp
      rw [List.foldl_cons] at hp
      rcases hbo : bestSlotsForOption votes avail o.id with _ | best
      · rw [hbo] at hp
        rcases ih res hp with hc | ⟨o', ho', he⟩
        · exact Or.inl hc
        · exact Or.inr ⟨o', List.mem_cons_of_mem _ ho', he⟩
      · rw [hbo] at hp
        rcases ih (dictInsert res o.text best) hp with hc | ⟨o', ho', he⟩
        · rcases mem_dictInsert res o.text best p hc with hc' | rfl
          · exact Or.inl hc'
          · exact Or.inr ⟨o, List.mem_cons_self _ _, rfl, hbo⟩
        · exact Or.inr ⟨o', List.mem_cons_of_mem _ ho', he⟩

/-- Unfolding of a successful `bestSlotsForOption`. -/
lemma bestSlotsForOption_eq_some (votes : List (Nat × Nat))
    (avail : List (Nat × String)) (optId : Nat) (infos : List SlotInfo)
    (h : bestSlotsForOption votes avail optId = some infos) :
    2 ≤ (votersOf votes optId).length ∧
    commonSlots votes avail optId ≠ [] ∧
    infos = (commonSlots votes avail optId).filter
      (fun i => i.users.length = maxUsersCount (commonSlots votes avail optId)) := by
  unfold bestSlotsForOption at h
  by_cases hv : (votersOf votes optId).length < 2
  · rw [if_pos hv] at h; exact absurd h (by simp)
  · rw [if_neg hv] at h
    by_cases hc : (commonSlots votes avail optId).isEmpty
    · rw [if_pos hc] at h; exact absurd h (by simp)
    · rw [if_neg hc] at h
      exact ⟨by omega, by simpa using hc, (Option.some_injective _ h).symm⟩

/-- Members of `commonSlots` have at least two users, each of whom is a voter
of the option available in that slot. -/
lemma mem_commonSlots (votes : List (Nat × Nat)) (avail : List (Nat × String))
    (optId : Nat) (i : SlotInfo) (hi : i ∈ commonSlots votes avail optId) :
    2 ≤ i.users.length ∧
    ∀ u ∈ i.users, u ∈ votersOf votes optId ∧ i.slot ∈ slotsOf avail u := by
  unfold commonSlots at hi
  rcases List.mem_filter.mp hi with ⟨hmem, hlen⟩
  rcases List.mem_map.mp hmem with ⟨s, _, rfl⟩
  refine ⟨by simpa using hlen, ?_⟩
  intro u hu
  rcases List.mem_filter.mp hu with ⟨huv, hus⟩
  exact ⟨huv, by simpa using hus⟩

end MatchingLemmas

/-- C4 (amended part): every entry of `compute_matches_for_poll_from_db`
belongs to an option with at least 2 voters, and each surfaced slot has at
least 2 participants, all of them voters of that option available in the
slot. -/
theorem compute_matches_threshold (options : List OptionRow)
    (votes : List (Nat × Nat)) (avail : List (Nat × String)) (t : String)
    (infos : List SlotInfo)
    (hmem : (t, infos) ∈ compute_matches_for_poll_from_db options votes avail) :
    ∃ o ∈ options, o.text = t ∧ 2 ≤ (votersOf votes o.id).length ∧
      ∀ info ∈ infos, 2 ≤ info.users.length ∧
        ∀ u ∈ info.users, u ∈ votersOf votes o.id ∧ info.slot ∈ slotsOf avail u := by
  rcases mem_compute_matches options votes avail (t, infos) hmem with ⟨o, ho, ht, hbo⟩
  rcases bestSlotsForOption_eq_some votes avail o.id infos hbo with ⟨hv, _, hinfos⟩
  refine ⟨o, ho, ht, hv, ?_⟩
  intro info hinfo
  rw [hinfos] at hinfo
  exact mem_commonSlots votes avail o.id info (List.mem_of_mem_filter hinfo)

/-- Witness for `compute_matches_threshold` at a concrete two-voter poll. -/
theorem compute_matches_threshold_witness :
    (("Spiele", [SlotInfo.mk "Fr-19" [7, 8]]) ∈
        compute_matches_for_poll_from_db [⟨1, "Spiele", "", none⟩]
          [(1, 7), (1, 8)] [(7, "Fr-19"), (8, "Fr-19")]) ∧
    (∃ o ∈ [OptionRow.mk 1 "Spiele" "" none], o.text = "Spiele" ∧
      2 ≤ (votersOf [(1, 7), (1, 8)] o.id).length ∧
      ∀ info ∈ [SlotInfo.mk "Fr-19" [7, 8]], 2 ≤ info.users.length ∧
        ∀ u ∈ info.users, u ∈ votersOf [(1, 7), (1, 8)] o.id ∧
          info.slot ∈ slotsOf [(7, "Fr-19"), (8, "Fr-19")] u) :=
  ⟨by decide, compute_matches_threshold _ _ _ _ _ (by decide)⟩

/-- C4 counterexample: in `quarter_poll.py`'s `build_quarter_embed`, an
option with a single voter surfaces a "best day" backed by that one voter
alone, so the 2-voter thresholds do not hold for this match computation. -/
theorem quarter_embed_threshold_counterexample :
    quarterBestDays [(1, 7)] [(7, "2026-01-05")] 1 = [("2026-01-05", [7])] ∧
    (votersOf [(1, 7)] 1).length = 1 := by
  decide

/-- C6: a match entry's slot list is exactly the qualifying (`≥ 2` users)
slots of maximal user count — all ties included, nothing non-maximal. -/
theorem compute_matches_max_only_ties_all (options : List OptionRow)
    (votes : List (Nat × Nat)) (avail : List (Nat × String)) (t : String)
    (infos : List SlotInfo)
    (hmem : (t, infos) ∈ compute_matches_for_poll_from_db options votes avail) :
    ∃ o ∈ options, o.text = t ∧
      ∀ info : SlotInfo,
        (info ∈ infos ↔ info ∈ commonSlots votes avail o.id ∧
          ∀ j ∈ commonSlots votes avail o.id,
            j.users.length ≤ info.users.length) := by
  rcases mem_compute_matches options votes avail (t, infos) hmem with ⟨o, ho, ht, hbo⟩
  rcases bestSlotsForOption_eq_some votes avail o.id infos hbo with ⟨_, hne, hinfos⟩
  refine ⟨o, ho, ht, ?_⟩
  intro info
  constructor
  · intro hi
    rw [hinfos] at hi
    rcases List.mem_filter.mp hi with ⟨hic, hieq⟩
    have hieq' : info.users.length = maxUsersCount (commonSlots votes avail o.id) := by
      simpa using hieq
    refine ⟨hic, fun j hj => ?_⟩
    rw [hieq']
    exact le_maxUsersCount _ j hj
  · rintro ⟨hic, hmax⟩
    rw [hinfos]
    refine List.mem_filter.mpr ⟨hic, ?_⟩
    rcases maxUsersCount_attained _ hne with ⟨j, hj, hjmax⟩
    have h1 := le_maxUsersCount _ info hic
    have h2 := hmax j hj
    simp only [decide_eq_true_eq]
    omega

/-- Witness for `compute_matches_max_only_ties_all`: two tied maximal slots
are both returned. -/
theorem compute_matches_max_only_witness :
    (("Spiele", [SlotInfo.mk "Fr-19" [7, 8], SlotInfo.mk "Sa-20" [7, 9]]) ∈
        compute_matches_for_poll_from_db [⟨1, "Spiele", "", none⟩]
          [(1, 7), (1, 8), (1, 9)]
          [(7, "Fr-19"), (8, "Fr-19"), (7, "Sa-20"), (9, "Sa-20")]) ∧
    (∃ o ∈ [OptionRow.mk 1 "Spiele" "" none], o.text = "Spiele" ∧
      ∀ info : SlotInfo,
        (info ∈ [SlotInfo.mk "Fr-19" [7, 8], SlotInfo.mk "Sa-20" [7, 9]] ↔
          info ∈ commonSlots [(1, 7), (1, 8), (1, 9)]
            [(7, "Fr-19"), (8, "Fr-19"), (7, "Sa-20"), (9, "Sa-20")] o.id ∧
          ∀ j ∈ commonSlots [(1, 7), (1, 8), (1, 9)]
            [(7, "Fr-19"), (8, "Fr-19"), (7, "Sa-20"), (9, "Sa-20")] o.id,
            j.users.length ≤ info.users.length)) :=
  ⟨by decide, compute_matches_max_only_ties_all _ _ _ _ _ (by decide)⟩

/-- C8: toggling the same `(poll, option, user)` vote twice returns the
vote set to its original state. -/
theorem toggle_vote_involutive (pollId : String) (optionId userId : Nat)
    (votes : Finset VoteRow) :
    toggle_vote pollId optionId userId
      (toggle_vote pollId optionId userId votes) = votes := by
  unfold toggle_vote
  by_cases h : (pollId, optionId, userId) ∈ votes
  · rw [if_pos h, if_neg (Finset.not_mem_erase _ _)]
    exact Finset.insert_erase h
  · rw [if_neg h, if_pos (Finset.mem_insert_self _ _)]
    exact Finset.erase_insert h

/-- C9: submitting an empty slot list deletes every persisted availability
row of that user for that poll and inserts nothing — the same table
transformation as the explicit clear button. -/
theorem persist_empty_equals_clear (pollId : String) (userId : Nat)
    (table : Finset AvailRow) :
    persist_availability pollId userId [] table
      = clear_availability pollId userId table := rfl

/-! ## Date/time parsing (`bot.py` utilities, `quarter_poll.py` CSV modal)

String manipulation is modelled on the underlying character lists with
structurally recursive helpers (kernel-reducible, unlike the iterator-based
library functions), mirroring the Python `str` methods the source calls. -/

/-- Python whitespace, as stripped by `str.strip()` (ASCII subset). -/
def isPySpace (c : Char) : Bool :=
  c = ' ' ∨ c = '\t' ∨ c = '\n' ∨ c = '\r' ∨ c = '\x0b' ∨ c = '\x0c'

def trimChars (l : List Char) : List Char :=
  ((l.dropWhile isPySpace).reverse.dropWhile isPySpace).reverse

/-- Python `s.strip()`. -/
def pyStrip (s : String) : String := String.mk (trimChars s.data)

/-- Python `s.split(c)` for a one-character separator (the only separators
this program uses are `"."`, `"-"`, `":"` and `","`). -/
def splitChar (c : Char) : List Char → List (List Char)
  | [] => [[]]
  | x :: xs =>
      match splitChar c xs with
      | [] => [[]]
      | r :: rs => if x = c then [] :: r :: rs else (x :: r) :: rs

/-- Python `s.split(c)` at the `String` level. -/
def pySplit (s : String) (c : Char) : List String :=
  (splitChar c s.data).map String.mk

/-- Decimal value of a digit list. -/
def digitsVal (l : List Char) : Nat :=
  l.foldl (fun acc c => acc * 10 + (c.toNat - '0'.toNat)) 0

/-- Python `int(s)` on a decimal string: optional surrounding whitespace,
an optional sign, then decimal digits.  (Underscore digit grouping, which
Python's `int` also accepts between digits, is not modelled; no input in
this development uses it.) -/
def pyInt (s : String) : Option Int :=
  let t := trimChars s.data
  let signedCore : Bool × List Char :=
    match t with
    | '-' :: rest => (true, rest)
    | '+' :: rest => (false, rest)
    | _ => (false, t)
  if signedCore.2 ≠ [] ∧ signedCore.2.all Char.isDigit then
    some (if signedCore.1 then -(digitsVal signedCore.2 : Int)
          else (digitsVal signedCore.2 : Int))
  else none

/-- Decimal rendering of a natural number (`fuel`-structured so the kernel
can evaluate it; `fuel = n + 1` always suffices). -/
def natToCharsAux (fuel n : Nat) : List Char :=
  match fuel with
  | 0 => []
  | fuel + 1 =>
      if n < 10 then [Char.ofNat ('0'.toNat + n)]
      else natToCharsAux fuel (n / 10) ++ [Char.ofNat ('0'.toNat + n % 10)]

/-- Python `str(n)` / an f-string hole for a natural number. -/
def natToString (n : Nat) : String := String.mk (natToCharsAux (n + 1) n)

def isLeapYear (y : Nat) : Bool :=
  (y % 4 = 0 ∧ y % 100 ≠ 0) ∨ y % 400 = 0

def daysInMonth (y m : Nat) : Nat :=
  if m = 2 then (if isLeapYear y then 29 else 28)
  else if m = 4 ∨ m = 6 ∨ m = 9 ∨ m = 11 then 30
  else 31

/-- A Python `datetime.date` value. -/
structure PyDate where
  year : Nat
  month : Nat
  day : Nat
deriving DecidableEq, Repr

/-- Python `date(y, m, d)`: validates `MINYEAR=1 ≤ y ≤ MAXYEAR=9999`,
`1 ≤ m ≤ 12`, `1 ≤ d ≤ days-in-month`, raising (`none` here) otherwise. -/
def mkDate (y m d : Int) : Option PyDate :=
  if 1 ≤ y ∧ y ≤ 9999 ∧ 1 ≤ m ∧ m ≤ 12 ∧ 1 ≤ d ∧
      d ≤ daysInMonth y.toNat m.toNat then
    some ⟨y.toNat, m.toNat, d.toNat⟩
  else none

/-- A Python `datetime.time` value (seconds are always 0 in this program). -/
structure PyTime where
  hour : Nat
  minute : Nat
deriving DecidableEq, Repr

/-- Python `time(hh, mm)`: validates `0 ≤ hh ≤ 23`, `0 ≤ mm ≤ 59`. -/
def mkTime (hh mm : Int) : Option PyTime :=
  if 0 ≤ hh ∧ hh ≤ 23 ∧ 0 ≤ mm ∧ mm ≤ 59 then some ⟨hh.toNat, mm.toNat⟩
  else none

/-- `date.fromisoformat` / `datetime.fromisoformat(...).date()`, restricted
to the plain `YYYY-MM-DD` shape used by this program (further ISO-8601
shapes accepted by newer Python versions are not modelled; no counterexample
below depends on them). -/
def fromisoformatDate (s : String) : Option PyDate :=
  match splitChar '-' s.data with
  | [ys, ms, ds] =>
      if ys.length = 4 ∧ ms.length = 2 ∧ ds.length = 2 ∧
          ys.all Char.isDigit ∧ ms.all Char.isDigit ∧ ds.all Char.isDigit then
        mkDate (digitsVal ys) (digitsVal ms) (digitsVal ds)
      else none
  | _ => none

/-- `bot.py` `parse_date_ddmmyyyy`: on exactly three dot-separated parts
read them as `d, m, y` and build `date(y, m, d)`; otherwise fall back to
`date.fromisoformat`; any failure yields `None`. -/
def parse_date_ddmmyyyy (s : String) : Option PyDate :=
  let t := pyStrip s
  match pySplit t '.' with
  | [ds, ms, ys] =>
      match pyInt ds, pyInt ms, pyInt ys with
      | some d, some m, some y => mkDate y m d
      | _, _, _ => none
  | _ => fromisoformatDate t

/-- `bot.py` `parse_time_hhmm`: `hh, mm = map(int, s.split(":"))` (exactly
two parts, or the unpacking raises), then `time(hh, mm)`. -/
def parse_time_hhmm (s : String) : Option PyTime :=
  let t := pyStrip s
  match pySplit t ':' with
  | [hs, ms] =>
      match pyInt hs, pyInt ms with
      | some hh, some mm => mkTime hh mm
      | _, _ => none
  | _ => none

/-- Python `s.count(c)` for a single character. -/
def countChar (s : String) (c : Char) : Nat := s.data.count c

/-- `bot.py` `parse_date_range`: strip, split on `-` and strip each part;
a single part is used as both start and end; a part with exactly one dot
gets `.{current_year}` appended; other part counts give `(None, None)`. -/
def parse_date_range (s : String) (currentYear : Nat) :
    Option PyDate × Option PyDate :=
  match (pySplit (pyStrip s) '-').map pyStrip with
  | [single] =>
      if single = "" then (none, none)
      else
        let single :=
          if countChar single '.' = 1 then single ++ "." ++ natToString currentYear
          else single
        let sd := parse_date_ddmmyyyy single
        (sd, sd)
  | [startStr, endStr] =>
      let startStr :=
        if countChar startStr '.' = 1 then startStr ++ "." ++ natToString currentYear
        else startStr
      let endStr :=
        if countChar endStr '.' = 1 then endStr ++ "." ++ natToString currentYear
        else endStr
      (parse_date_ddmmyyyy startStr, parse_date_ddmmyyyy endStr)
  | _ => (none, none)

/-- `bot.py` `parse_time_range`: strip, split on `-` into exactly two
stripped parts; a digits-only part (Python `str.isdigit`) gets `:00`
appended. -/
def parse_time_range (s : String) : Option PyTime × Option PyTime :=
  match (pySplit (pyStrip s) '-').map pyStrip with
  | [startStr, endStr] =>
      let startStr :=
        if startStr.data ≠ [] ∧ startStr.data.all Char.isDigit then startStr ++ ":00"
        else startStr
      let endStr :=
        if endStr.data ≠ [] ∧ endStr.data.all Char.isDigit then endStr ++ ":00"
        else endStr
      (parse_time_hhmm startStr, parse_time_hhmm endStr)
  | _ => (none, none)

/-! ## `CreateEventModal.on_submit` (`bot.py`) and
`QuarterPickDaysModal.on_submit` (`quarter_poll.py`) -/

/-- A row of the `created_events` table, restricted to the columns the
submission writes (the date/time columns hold the parsed values whose ISO
strings the source stores). -/
structure CreatedEventRow where
  id : String
  pollId : String
  title : String
  description : String
  startDate : PyDate
  startTime : PyTime
  endDate : PyDate
  endTime : PyTime
  location : String
deriving DecidableEq, Repr

/-- The reply `CreateEventModal.on_submit` sends before returning. -/
inductive CreateEventReply where
  /-- "Titel, Datumsbereich und Zeitbereich sind erforderlich." -/
  | requiredFieldsHint
  /-- The corrective hint: "Datums- bzw. Zeitbereich konnte nicht geparst
  werden. Verwende DD.MM.YYYY für Datum und HH:MM für Zeit." -/
  | parseHint
  /-- The row was inserted and processing continued. -/
  | saved
deriving DecidableEq, Repr

/-- `bot.py` `CreateEventModal.on_submit`, up to and including the
`created_events` insert decision: strip the fields, reject missing required
fields, reject an unparseable date or time range with a corrective hint and
no write, else insert the row.  The id comes from the current timestamp and
acting user (a parameter here); the RSVP insert and message posting that
follow a successful insert are outside this model. -/
def create_event_modal_submit (eventId pollId : String)
    (title description dateRange timeRange location : String)
    (currentYear : Nat) (db : Finset CreatedEventRow) :
    Finset CreatedEventRow × CreateEventReply :=
  if pyStrip title = "" ∨ pyStrip dateRange = "" ∨ pyStrip timeRange = "" then
    (db, .requiredFieldsHint)
  else
    match parse_date_range (pyStrip dateRange) currentYear,
        parse_time_range (pyStrip timeRange) with
    | (some sd, some ed), (some st, some et) =>
        (insert ⟨eventId, pollId, pyStrip title, pyStrip description,
            sd, st, ed, et, pyStrip location⟩ db, .saved)
    | _, _ => (db, .parseHint)

def pad2 (n : Nat) : String :=
  if n < 10 then "0" ++ natToString n else natToString n

def pad4 (n : Nat) : String :=
  if n < 10 then "000" ++ natToString n
  else if n < 100 then "00" ++ natToString n
  else if n < 1000 then "0" ++ natToString n
  else natToString n

/-- `date.isoformat()`. -/
def isoString (d : PyDate) : String :=
  pad4 d.year ++ "-" ++ pad2 d.month ++ "-" ++ pad2 d.day

/-- A row of `quarter_availability` (`quarter_poll.py`):
`(poll_id, user_id, day)` with `UNIQUE(poll_id, user_id, day)`. -/
abbrev QuarterAvailRow := Nat × Nat × String

/-- `quarter_poll.py` `QuarterPickDaysModal.on_submit`: split the raw text
on commas, keep non-empty trimmed parts, and for each part that parses as an
ISO date `INSERT OR IGNORE` a `(poll_id, user_id, day)` row, counting it as
saved; an unparseable part is skipped silently by the bare `except: pass`.
There is no `DELETE`.  Returns the updated table and the count shown in the
"{saved} Tage gespeichert." reply. -/
def quarter_pick_days_submit (pollId userId : Nat) (raw : String)
    (table : Finset QuarterAvailRow) : Finset QuarterAvailRow × Nat :=
  let parts := ((pySplit (pyStrip raw) ',').map pyStrip).filter (fun p => p ≠ "")
  parts.foldl
    (fun acc p =>
      match fromisoformatDate p with
      | some d => (insert (pollId, userId, isoString d) acc.1, acc.2 + 1)
      | none => acc)
    (table, 0)

/-- C3 counterexample: in `quarter_poll.py`, submitting availability set
B = {2026-01-12} after previously submitting A = {2026-01-05} leaves the
union persisted — the leftover member of A \ B is still there, so
submission does not replace the prior set. -/
theorem quarter_submit_not_replace_counterexample :
    (quarter_pick_days_submit 1 42 "2026-01-12"
        (quarter_pick_days_submit 1 42 "2026-01-05" ∅).1).1
      = {(1, 42, "2026-01-05"), (1, 42, "2026-01-12")} ∧
    (1, 42, "2026-01-05") ∈
      (quarter_pick_days_submit 1 42 "2026-01-12"
        (quarter_pick_days_submit 1 42 "2026-01-05" ∅).1).1 := by
  decide

/-- C3 (amended part): submissions that go through `bot.py`'s
`persist_availability` do replace — after submitting A and then B, exactly
the slots of B are persisted for that `(poll, user)`, with no leftover. -/
theorem persist_availability_replaces (pollId : String) (userId : Nat)
    (a b : List String) (table : Finset AvailRow) :
    persistedSlots pollId userId
        (persist_availability pollId userId b
          (persist_availability pollId userId a table))
      = b.toFinset :=
  persistedSlots_persist pollId userId b _

/-- C7 counterexample: a `QuarterPickDaysModal` submission containing the
unparseable entry "notadate" still inserts the parseable day's row (a
partial state change) and replies with the count "1 Tage gespeichert."
rather than aborting with a corrective hint. -/
theorem quarter_submit_partial_state_counterexample :
    (quarter_pick_days_submit 1 42 "2026-01-05,notadate" ∅).1
      = {(1, 42, "2026-01-05")} ∧
    (quarter_pick_days_submit 1 42 "2026-01-05,notadate" ∅).1 ≠ ∅ ∧
    (quarter_pick_days_submit 1 42 "2026-01-05,notadate" ∅).2 = 1 := by
  decide

/-- C7 (amended part): `CreateEventModal.on_submit` does behave as claimed —
with the required fields present, an unparseable date or time range aborts
the submission with the corrective hint, leaving `created_events`
unchanged. -/
theorem create_event_modal_aborts_on_parse_failure
    (eventId pollId title description dateRange timeRange location : String)
    (currentYear : Nat) (db : Finset CreatedEventRow)
    (htitle : pyStrip title ≠ "") (hdate : pyStrip dateRange ≠ "")
    (htime : pyStrip timeRange ≠ "")
    (hparse : (parse_date_range (pyStrip dateRange) currentYear).1 = none ∨
      (parse_date_range (pyStrip dateRange) currentYear).2 = none ∨
      (parse_time_range (pyStrip timeRange)).1 = none ∨
      (parse_time_range (pyStrip timeRange)).2 = none) :
    create_event_modal_submit eventId pollId title description dateRange
        timeRange location currentYear db
      = (db, CreateEventReply.parseHint) := by
  unfold create_event_modal_submit
  rw [if_neg (by simp [htitle, hdate, htime])]
  rcases hpd : parse_date_range (pyStrip dateRange) currentYear with ⟨d1, d2⟩
  rcases hpt : parse_time_range (pyStrip timeRange) with ⟨t1, t2⟩
  cases d1 <;> cases d2 <;> cases t1 <;> cases t2 <;> simp_all

/-- Witness for `create_event_modal_aborts_on_parse_failure` at a concrete
unparseable date range. -/
theorem create_event_modal_aborts_witness :
    (pyStrip "Titel" ≠ "") ∧ (pyStrip "garbage" ≠ "") ∧
    (pyStrip "18:00 - 20:00" ≠ "") ∧
    ((parse_date_range (pyStrip "garbage") 2025).1 = none ∨
      (parse_date_range (pyStrip "garbage") 2025).2 = none ∨
      (parse_time_range (pyStrip "18:00 - 20:00")).1 = none ∨
      (parse_time_range (pyStrip "18:00 - 20:00")).2 = none) ∧
    create_event_modal_submit "e1" "p" "Titel" "" "garbage" "18:00 - 20:00"
        "" 2025 ∅
      = (∅, CreateEventReply.parseHint) :=
  ⟨by decide, by decide, by decide, by decide,
    create_event_modal_aborts_on_parse_failure "e1" "p" "Titel" "" "garbage"
      "18:00 - 20:00" "" 2025 ∅ (by decide) (by decide) (by decide) (by decide)⟩

/-! ## Weekly availability UI flow (`bot.py` `temp_selections`,
`AvailabilityDayView`, `SubmitButton`) -/

/-- The state the weekly availability flow touches: the `availability` table
and the in-memory `temp_selections` dict (`none` = no entry for that
`(poll_id, user_id)`).  Python keeps each entry as a `set`; since the code
only ever iterates it (in unspecified hash order) or tests membership, the
entry is modelled as a duplicate-free list in a fixed (sorted) order — every
property proved about it is order-independent. -/
structure WeeklyUiState where
  availability : Finset AvailRow
  temp : String → Nat → Option (List String)

/-- `AvailabilityDayView.__init__` with `for_user` set: when the user has no
tentative entry yet, seed it from the persisted availability rows
(`SELECT slot FROM availability WHERE poll_id = ? AND user_id = ?`);
otherwise leave the staged selection alone.  The button-grid construction
has no further state effect. -/
def availability_day_view_init (pollId : String) (forUser : Nat)
    (st : WeeklyUiState) : WeeklyUiState :=
  match st.temp pollId forUser with
  | some _ => st
  | none =>
      { st with
        temp := fun p u =>
          if p = pollId ∧ u = forUser then
            some ((persistedSlots pollId forUser st.availability).sort (· ≤ ·))
          else st.temp p u }

/-- `SubmitButton.callback`: read the tentative set (empty when absent),
`persist_availability` it, then drop the tentative entry. -/
def submit_button_callback (pollId : String) (uid : Nat)
    (st : WeeklyUiState) : WeeklyUiState :=
  let userTmp := (st.temp pollId uid).getD []
  { availability :=
      persist_availability pollId uid userTmp st.availability,
    temp := fun p u => if p = pollId ∧ u = uid then none else st.temp p u }

/-- C10: for a user with no staged tentative selection, opening the weekly
availability view and immediately pressing Submit leaves the persisted slot
set unchanged — the view seeds the tentative set from the persisted rows and
submission re-persists that same set. -/
theorem availability_view_submit_roundtrip (pollId : String) (uid : Nat)
    (st : WeeklyUiState) (h : st.temp pollId uid = none) :
    persistedSlots pollId uid
        ((submit_button_callback pollId uid
          (availability_day_view_init pollId uid st)).availability)
      = persistedSlots pollId uid st.availability := by
  have hl : (availability_day_view_init pollId uid st).temp pollId uid
      = some ((persistedSlots pollId uid st.availability).sort (· ≤ ·)) := by
    unfold availability_day_view_init
    rw [h]
    simp
  have ha : (availability_day_view_init pollId uid st).availability
      = st.availability := by
    unfold availability_day_view_init
    rw [h]
  unfold submit_button_callback
  rw [hl, ha]
  simp only [Option.getD_some]
  rw [persistedSlots_persist]
  exact Finset.sort_toFinset _ _

/-- Witness for `availability_view_submit_roundtrip` at a concrete state
with one persisted slot and no staged selection. -/
theorem availability_view_submit_roundtrip_witness :
    ((WeeklyUiState.mk {("p", 1, "Mo-12")} (fun _ _ => none)).temp "p" 1
        = none) ∧
    persistedSlots "p" 1
        ((submit_button_callback "p" 1
          (availability_day_view_init "p" 1
            (WeeklyUiState.mk {("p", 1, "Mo-12")} (fun _ _ => none)))).availability)
      = persistedSlots "p" 1
          (WeeklyUiState.mk {("p", 1, "Mo-12")} (fun _ _ => none)).availability :=
  ⟨rfl, availability_view_submit_roundtrip "p" 1 _ rfl⟩

/-! ## Reminder scheduling (`events.py` `schedule_reminders_for_event`,
`bot.py` `schedule_reminders_for_created_event`) -/

/-- What happens to one reminder offset when (re)scheduling. -/
inductive ReminderAction where
  /-- `scheduler.add_job(..., DateTrigger(run_date=runAt), ...)`. -/
  | scheduled (runAt : Int)
  /-- `bot.loop.create_task(reminder_coro(...))` — run immediately. -/
  | runNow
  /-- Neither branch taken: nothing is scheduled or run. -/
  | dropped
deriving DecidableEq, Repr

/-- The shared per-offset branch structure of both schedulers:
`if tOff > now: schedule at tOff; elif tOff <= now < start: run now`. -/
def reminderDecision (now tOff start : Int) : ReminderAction :=
  if now < tOff then .scheduled tOff
  else if tOff ≤ now ∧ now < start then .runNow
  else .dropped

/-- `events.py` `schedule_reminders_for_event` (after removing the previous
jobs): for `start_time = None` return with no action; otherwise decide the
24h and the 2h offsets against the current time.  Times in seconds. -/
def schedule_reminders_for_event (now : Int) (start : Option Int) :
    ReminderAction × ReminderAction :=
  match start with
  | none => (.dropped, .dropped)
  | some st =>
      (reminderDecision now (st - 24 * 3600) st,
       reminderDecision now (st - 2 * 3600) st)

/-- `bot.py` `schedule_reminders_for_created_event` (after
`_remove_created_event_jobs`): the same branch structure with 24h and 1h
offsets. -/
def schedule_reminders_for_created_event (now : Int) (start : Option Int) :
    ReminderAction × ReminderAction :=
  match start with
  | none => (.dropped, .dropped)
  | some st =>
      (reminderDecision now (st - 24 * 3600) st,
       reminderDecision now (st - 1 * 3600) st)

/-- The behaviour C5 claims, written from the spec's words: offset moment
still in the future → schedule there; start already passed → nothing;
otherwise (offset moment passed, start not yet arrived) → run immediately. -/
def claimedReminderBehavior (now tOff start : Int) : ReminderAction :=
  if start ≤ now then .dropped
  else if now < tOff then .scheduled tOff
  else .runNow

lemma reminderDecision_eq_claimed (now tOff start : Int)
    (hoff : tOff ≤ start) :
    reminderDecision now tOff start = claimedReminderBehavior now tOff start := by
  unfold reminderDecision claimedReminderBehavior
  by_cases h1 : now < tOff
  · rw [if_pos h1, if_neg (by omega), if_pos h1]
  · rw [if_neg h1]
    by_cases h2 : now < start
    · rw [if_pos (by omega), if_neg (by omega), if_neg h1]
    · rw [if_neg (by omega), if_pos (by omega)]

/-- C5: for every current time and start time, both reminder schedulers
realise exactly the claimed per-offset behaviour — schedule a one-shot job
at `start - offset` while that moment is in the future, run the reminder
immediately when the moment has passed but the start has not, and do
nothing for the offset once the start itself has passed. -/
theorem reminder_scheduling_cases (now st : Int) :
    schedule_reminders_for_event now (some st)
        = (claimedReminderBehavior now (st - 24 * 3600) st,
           claimedReminderBehavior now (st - 2 * 3600) st) ∧
    schedule_reminders_for_created_event now (some st)
        = (claimedReminderBehavior now (st - 24 * 3600) st,
           claimedReminderBehavior now (st - 1 * 3600) st) := by
  constructor <;>
    dsimp only [schedule_reminders_for_event,
      schedule_reminders_for_created_event] <;>
    rw [reminderDecision_eq_claimed _ _ _ (by omega),
        reminderDecision_eq_claimed _ _ _ (by omega)]

/-! ## Tracked-event synchronisation (`events.py`)

The three lifecycle handlers and the reminder coroutine act on the
`tracked_events` table and on the announcement messages in the events
channel.  Message existence is all the handlers can observe (via
`fetch_message`), so the channel is modelled as the `Finset` of currently
existing message ids; a fresh send returns `nextMsg`.  `chanOk` stands for
`bot.get_channel(...)` resolving (the process has one events channel, with
id `chId`). -/

/-- The payload of a `tracked_events` row, keyed by `discord_event_id`.
`posted` bundles the nullable `posted_channel_id`/`posted_message_id` pair,
which the source always writes together.  `updated_at` is not modelled. -/
structure TrackedRow where
  guildId : Nat
  startTime : Option Int
  posted : Option (Nat × Nat)
deriving DecidableEq, Repr

/-- The synchroniser state: the `tracked_events` table and the live
announcement messages. -/
structure SyncState where
  tracked : String → Option TrackedRow
  live : Finset Nat
  nextMsg : Nat

def initialSyncState : SyncState :=
  { tracked := fun _ => none, live := ∅, nextMsg := 0 }

/-- The `INSERT OR REPLACE INTO tracked_events(guild_id, discord_event_id,
start_time, updated_at)` of the create handler.  Under SQLite OR REPLACE the
conflicting row (`discord_event_id` is UNIQUE) is deleted and a fresh row
inserted; the unnamed `posted_channel_id`/`posted_message_id` columns of the
fresh row default to NULL — any previously recorded message reference is
discarded here. -/
def create_upsert (e : String) (g : Nat) (st : Option Int)
    (s : SyncState) : SyncState :=
  { s with
    tracked := fun x => if x = e then some ⟨g, st, none⟩ else s.tracked x }

/-- `events.py` `on_guild_scheduled_event_create`: upsert the row, then —
when the events channel resolves — unconditionally send a fresh announcement
and record its id with an `UPDATE`.  There is no fetch of any previously
recorded message.  Reminder scheduling does not touch this state. -/
def on_scheduled_event_create (e : String) (g : Nat) (st : Option Int)
    (chanOk : Bool) (chId : Nat) (s : SyncState) : SyncState :=
  let s1 := create_upsert e g st s
  if chanOk then
    { tracked := fun x =>
        if x = e then
          (s1.tracked x).map (fun r => { r with posted := some (chId, s1.nextMsg) })
        else s1.tracked x,
      live := insert s1.nextMsg s1.live,
      nextMsg := s1.nextMsg + 1 }
  else s1

/-- `events.py` `on_guild_scheduled_event_update`: `UPDATE ... SET
start_time` on the row, reschedule reminders (no effect on this state), then
fetch the recorded message and edit it in place.  The edit changes only
message content; a missing channel, a NULL reference, and a failed fetch are
all swallowed by `except Exception: pass` — no column is written and no
message is created or deleted in any case. -/
def on_scheduled_event_update (e : String) (st : Option Int)
    (s : SyncState) : SyncState :=
  { s with
    tracked := fun x =>
      if x = e then (s.tracked x).map (fun r => { r with startTime := st })
      else s.tracked x }

/-- `events.py` `on_guild_scheduled_event_delete`: best-effort delete the
recorded message (any failure swallowed), then delete the row (and the RSVP
rows, not modelled) unconditionally. -/
def on_scheduled_event_delete (e : String) (chanOk : Bool)
    (s : SyncState) : SyncState :=
  let live' :=
    if chanOk then
      match s.tracked e with
      | some r =>
          match r.posted with
          | some pm => if pm.2 ∈ s.live then s.live.erase pm.2 else s.live
          | none => s.live
      | none => s.live
    else s.live
  { tracked := fun x => if x = e then none else s.tracked x,
    live := live',
    nextMsg := s.nextMsg }

/-- `events.py` `reminder_coro` for one event: return if the events channel
does not resolve; otherwise delete the recorded previous message when it
still exists (a failed fetch is swallowed — the stored reference is *not*
cleared in this variant), send the fresh reminder announcement, and record
its id. -/
def events_reminder_coro (e : String) (chanOk : Bool) (chId : Nat)
    (s : SyncState) : SyncState :=
  if chanOk then
    let liveAfter :=
      match s.tracked e with
      | some r =>
          match r.posted with
          | some pm => if pm.2 ∈ s.live then s.live.erase pm.2 else s.live
          | none => s.live
      | none => s.live
    { tracked := fun x =>
        if x = e then
          (s.tracked x).map (fun r => { r with posted := some (chId, s.nextMsg) })
        else s.tracked x,
      live := insert s.nextMsg liveAfter,
      nextMsg := s.nextMsg + 1 }
  else s

/-- The events that can follow a create without a delete: an `updated`
notification or a reminder job firing. -/
inductive SyncStep where
  | update (startTime : Option Int)
  | reminder
deriving Repr

def applySyncStep (e : String) (chId : Nat) (s : SyncState) :
    SyncStep → SyncState
  | .update st => on_scheduled_event_update e st s
  | .reminder => events_reminder_coro e true chId s

def applySyncSteps (e : String) (chId : Nat) (steps : List SyncStep)
    (s : SyncState) : SyncState :=
  steps.foldl (applySyncStep e chId) s

/-- C1 counterexample: two `created` notifications for the same event id
(the channel resolving, every send succeeding) leave two live announcement
messages — the first message (id 0) is never deleted, while the row records
only the second (id 1).  A duplicate `created` notification therefore does
post a second announcement. -/
theorem duplicate_create_two_live_counterexample :
    ((on_scheduled_event_create "E" 1 none true 10
        (on_scheduled_event_create "E" 1 none true 10
          initialSyncState)).live).card = 2 ∧
    ¬((on_scheduled_event_create "E" 1 none true 10
        (on_scheduled_event_create "E" 1 none true 10
          initialSyncState)).live).card ≤ 1 ∧
    0 ∈ (on_scheduled_event_create "E" 1 none true 10
        (on_scheduled_event_create "E" 1 none true 10
          initialSyncState)).live ∧
    (on_scheduled_event_create "E" 1 none true 10
        (on_scheduled_event_create "E" 1 none true 10
          initialSyncState)).tracked "E"
      = some ⟨1, none, some (10, 1)⟩ := by
  decide

/-- The invariant after one successful create: exactly one live message, and
it is the recorded one. -/
def announceInv (e : String) (s : SyncState) : Prop :=
  ∃ g st c m, s.tracked e = some ⟨g, st, some (c, m)⟩ ∧
    s.live = {m} ∧ m < s.nextMsg

lemma announceInv_create (e : String) (g : Nat) (st : Option Int)
    (chId : Nat) :
    announceInv e (on_scheduled_event_create e g st true chId
      initialSyncState) := by
  refine ⟨g, st, chId, 0, ?_, ?_, ?_⟩ <;>
    simp [on_scheduled_event_create, create_upsert, initialSyncState]

lemma announceInv_update (e : String) (st : Option Int) (s : SyncState)
    (h : announceInv e s) :
    announceInv e (on_scheduled_event_update e st s) := by
  obtain ⟨g, st0, c, m, hrow, hlive, hm⟩ := h
  exact ⟨g, st, c, m, by simp [on_scheduled_event_update, hrow], hlive, hm⟩

lemma announceInv_reminder (e : String) (chId : Nat) (s : SyncState)
    (h : announceInv e s) :
    announceInv e (events_reminder_coro e true chId s) := by
  obtain ⟨g, st0, c, m, hrow, hlive, hm⟩ := h
  refine ⟨g, st0, chId, s.nextMsg, ?_, ?_, ?_⟩
  · simp [events_reminder_coro, hrow]
  · simp [events_reminder_coro, hrow, hlive]
  · simp [events_reminder_coro]

lemma announceInv_steps (e : String) (chId : Nat) (steps : List SyncStep)
    (s : SyncState) (h : announceInv e s) :
    announceInv e (applySyncSteps e chId steps s) := by
  induction steps generalizing s with
  | nil => exact h
  | cons step rest ih =>
      cases step with
      | update st =>
          exact ih _ (announceInv_update e st s h)
      | reminder =>
          exact ih _ (announceInv_reminder e chId s h)

/-- C1 (amended part): after a single `created` notification from a clean
state (channel available, sends succeeding), any further sequence of
`updated` notifications and reminder firings for that event id keeps exactly
one announcement message live — updates only edit in place, and each
reminder deletes the recorded message before sending its replacement. -/
theorem single_create_keeps_one_live (e : String) (g : Nat)
    (st : Option Int) (chId : Nat) (steps : List SyncStep) :
    ((applySyncSteps e chId steps
        (on_scheduled_event_create e g st true chId
          initialSyncState)).live).card = 1 := by
  obtain ⟨_, _, _, m, _, hlive, _⟩ :=
    announceInv_steps e chId steps _ (announceInv_create e g st chId)
  rw [hlive]
  exact Finset.card_singleton m

/-- C2 counterexample: a `tracked_events` row records message 555, which no
longer exists (the live set is empty); an `updated` notification leaves the
stale reference recorded instead of clearing it — the not-found fetch is
swallowed and no column is written. -/
theorem update_no_self_heal_counterexample :
    555 ∉ (SyncState.mk
        (fun x => if x = "E" then some ⟨1, none, some (10, 555)⟩ else none)
        ∅ 556).live ∧
    (on_scheduled_event_update "E" (some 1000)
        (SyncState.mk
          (fun x => if x = "E" then some ⟨1, none, some (10, 555)⟩ else none)
          ∅ 556)).tracked "E"
      = some ⟨1, some 1000, some (10, 555)⟩ ∧
    ((on_scheduled_event_update "E" (some 1000)
        (SyncState.mk
          (fun x => if x = "E" then some ⟨1, none, some (10, 555)⟩ else none)
          ∅ 556)).tracked "E").map TrackedRow.posted ≠ some none := by
  refine ⟨by decide, ?_, ?_⟩ <;> decide

/-! ## Created-event reminder path (`bot.py` `_created_event_reminder_coro`)

The only place in the sources where a not-found fetch *clears* the stored
message reference. -/

/-- The reminder-relevant view of `created_events`: for each event id,
`none` when no row exists, `some p` when a row exists with posted reference
`p` (itself `none` when the posted columns are NULL), together with the live
messages of the channel. -/
structure CreatedSyncState where
  posted : String → Option (Option (Nat × Nat))
  live : Finset Nat
  nextMsg : Nat

/-- `_created_event_reminder_coro`, old-message stage (the body guarded by
`if old_ch_id and old_msg_id`): fetch the recorded message; when found,
delete it (a failure of the delete itself is tolerated); when the fetch
raises `discord.NotFound`, `UPDATE created_events SET posted_channel_id =
NULL, posted_message_id = NULL` — the self-heal clear. -/
def created_event_reminder_cleanup (eventId : String) (oldChanOk : Bool)
    (s : CreatedSyncState) : CreatedSyncState :=
  match s.posted eventId with
  | some (some pm) =>
      if oldChanOk then
        if pm.2 ∈ s.live then { s with live := s.live.erase pm.2 }
        else
          { s with
            posted := fun x => if x = eventId then some none else s.posted x }
      else s
  | _ => s

/-- `_created_event_reminder_coro`, send stage: send the fresh reminder
message to the configured channel and record its id (the `UPDATE` touches
the row only if it exists). -/
def created_event_reminder_send (eventId : String) (chId : Nat)
    (s : CreatedSyncState) : CreatedSyncState :=
  { posted := fun x =>
      if x = eventId then (s.posted x).map (fun _ => some (chId, s.nextMsg))
      else s.posted x,
    live := insert s.nextMsg s.live,
    nextMsg := s.nextMsg + 1 }

/-- `bot.py` `_created_event_reminder_coro`: return when the configured
channel does not resolve; otherwise run the old-message stage and then the
send stage. -/
def created_event_reminder_coro (eventId : String) (chanOk : Bool)
    (chId : Nat) (s : CreatedSyncState) : CreatedSyncState :=
  if chanOk then
    created_event_reminder_send eventId chId
      (created_event_reminder_cleanup eventId chanOk s)
  else s

/-- C2 (amended): where each handler leaves a stale (not-found) message
reference.  Given a `tracked_events` row recording a message that no longer
exists: the `updated` notification keeps the stale reference (the not-found
fetch is swallowed) and sends nothing; the `created` notification's upsert
discards the reference (to NULL) before the posting decision; the `deleted`
notification removes the whole row.  The claimed clear-on-not-found exists
only in the created-event reminder path, whose old-message stage sets the
posted columns to NULL when the fetch reports not-found. -/
theorem self_heal_location (e : String) (g : Nat) (st st' : Option Int)
    (c m : Nat) (s : SyncState) (cs : CreatedSyncState) (chanOk : Bool)
    (hrow : s.tracked e = some ⟨g, st, some (c, m)⟩)
    (hdead : m ∉ s.live)
    (hcrow : cs.posted e = some (some (c, m)))
    (hcdead : m ∉ cs.live) :
    ((on_scheduled_event_update e st' s).tracked e
        = some ⟨g, st', some (c, m)⟩ ∧
      (on_scheduled_event_update e st' s).live = s.live) ∧
    (create_upsert e g st' s).tracked e = some ⟨g, st', none⟩ ∧
    (on_scheduled_event_delete e chanOk s).tracked e = none ∧
    (created_event_reminder_cleanup e true cs).posted e = some none := by
  refine ⟨⟨?_, rfl⟩, ?_, ?_, ?_⟩
  · simp [on_scheduled_event_update, hrow]
  · simp [create_upsert]
  · simp [on_scheduled_event_delete]
  · simp [created_event_reminder_cleanup, hcrow, hcdead]

/-- Witness for `self_heal_location` at a concrete stale state. -/
theorem self_heal_location_witness :
    ((SyncState.mk
        (fun x => if x = "E" then some ⟨1, none, some (10, 555)⟩ else none)
        ∅ 556).tracked "E" = some ⟨1, none, some (10, 555)⟩) ∧
    (555 ∉ (SyncState.mk
        (fun x => if x = "E" then some ⟨1, none, some (10, 555)⟩ else none)
        ∅ 556).live) ∧
    ((CreatedSyncState.mk
        (fun x => if x = "E" then some (some (10, 555)) else none)
        ∅ 556).posted "E" = some (some (10, 555))) ∧
    (555 ∉ (CreatedSyncState.mk
        (fun x => if x = "E" then some (some (10, 555)) else none)
        ∅ 556).live) ∧
    (((on_scheduled_event_update "E" (some 7)
          (SyncState.mk
            (fun x => if x = "E" then some ⟨1, none, some (10, 555)⟩ else none)
            ∅ 556)).tracked "E" = some ⟨1, some 7, some (10, 555)⟩ ∧
        (on_scheduled_event_update "E" (some 7)
          (SyncState.mk
            (fun x => if x = "E" then some ⟨1, none, some (10, 555)⟩ else none)
            ∅ 556)).live
          = (SyncState.mk
            (fun x => if x = "E" then some ⟨1, none, some (10, 555)⟩ else none)
            ∅ 556).live) ∧
      (create_upsert "E" 1 (some 7)
          (SyncState.mk
            (fun x => if x = "E" then some ⟨1, none, some (10, 555)⟩ else none)
            ∅ 556)).tracked "E" = some ⟨1, some 7, none⟩ ∧
      (on_scheduled_event_delete "E" true
          (SyncState.mk
            (fun x => if x = "E" then some ⟨1, none, some (10, 555)⟩ else none)
            ∅ 556)).tracked "E" = none ∧
      (created_event_reminder_cleanup "E" true
          (CreatedSyncState.mk
            (fun x => if x = "E" then some (some (10, 555)) else none)
            ∅ 556)).posted "E" = some none) :=
  ⟨by decide, by decide, by decide, by decide,
    self_heal_location "E" 1 none (some 7) 10 555 _ _ true
      (by decide) (by decide) (by decide) (by decide)⟩

end WeeklyPollBot
